import Mathlib

/-!
Verification of the LeQua2022 submission container (`data.py`) and the
official evaluation script (`evaluate.py`).

The Python code is shallowly embedded: prevalence values become rationals,
`np.ndarray` becomes a shape-plus-data record, the pandas dataframe held by
`ResultSubmission` becomes an optional record of a column count and a list of
`(id, row)` pairs in storage (insertion/file) order, and every routine that can
raise becomes an `Except`-valued function whose error constructors carry the
data that the Python exception messages interpolate.
-/

namespace LeQua

/-- Modelled from the spec: the repository's `constants` module is not part of
the two core source files; the spec describes it as "a configuration surface
supplying three constants: the numeric tolerance ε for sum checks, and the two
permitted row counts (development-set size, test-set size)". -/
structure Config where
  errorTol : ℚ
  devSamples : ℕ
  testSamples : ℕ
deriving DecidableEq, Repr

/-- A numpy array: a shape together with the flat data (rationals standing in
for the float64 entries). -/
structure NpArray where
  shape : List ℕ
  data : List ℚ
deriving DecidableEq, Repr

/-- Embeds numpy's `a.ndim`: the number of axes. -/
def NpArray.ndim (a : NpArray) : ℕ := a.shape.length

/-- Embeds numpy's `a.size`: the total number of entries. -/
def NpArray.size (a : NpArray) : ℕ := a.data.length

/-- Embeds Python's `len(a)`: the extent of the first axis. -/
def NpArray.len (a : NpArray) : ℕ := a.shape.headD 0

/-- Builds the 1-D array holding the given entries. -/
def NpArray.vec (l : List ℚ) : NpArray := ⟨[l.length], l⟩

/-- The dataframe held by a non-empty `ResultSubmission`: the columns are the
consecutive integers `0, …, ncols-1` (as `__init_df` creates them and as
`check_dataframe_format` requires of a loaded file, so only the count is kept),
the index is named `id`, and `rows` lists the `(id, values)` pairs in the
dataframe's storage order. -/
structure DataFrame where
  ncols : ℕ
  rows : List (ℤ × List ℚ)
deriving DecidableEq, Repr

/-- Embeds `ResultSubmission.n_categories`: the number of class columns. -/
def DataFrame.n_categories (df : DataFrame) : ℕ := df.ncols

/-- The state of `ResultSubmission.df`: `None` until the first row arrives. -/
abbrev SubmissionState := Option DataFrame

/-- The rows currently stored in a `ResultSubmission` state. -/
def SubmissionState.storedRows (s : SubmissionState) : List (ℤ × List ℚ) :=
  match s with
  | none => []
  | some df => df.rows

/-- The Python value passed to `add` as `sample_id`. -/
inductive PyId where
  | int (sid : ℤ)
  | nonInt
deriving DecidableEq, Repr

/-- The Python value passed to `add` as `prevalence_values`. -/
inductive PyVal where
  | array (a : NpArray)
  | str (s : String)
  | pyNone
deriving DecidableEq, Repr

/-- The exceptions `ResultSubmission.add` (and the pandas row assignment it
ends with) can raise; constructors carry the data interpolated into the
corresponding Python message. -/
inductive AddError where
  | typeConflictId
  | typeConflictVector
  | typeConflictCategories
  | duplicateId (sid : ℤ)
  | shapeMismatch
  | rangeError (sid : ℤ)
  | sumError (sid : ℤ)
  | pandasRowError
deriving DecidableEq, Repr

/-- Whether an `AddError` is the `add` shape check's own error
(`'error: wrong shape found for prevalence vector …'`). -/
def AddError.isShapeMismatch : AddError → Bool
  | .shapeMismatch => true
  | _ => false

/-- Whether an `AddError` is the duplicate-id error
(`'error: prevalence values for "…" already added'`). -/
def AddError.isDuplicateId : AddError → Bool
  | .duplicateId _ => true
  | _ => false

/-- Embeds `df.loc[sid] = a` on a dataframe not containing label `sid`: pandas
enlarges the frame by one row when `a` is a 1-D vector with one entry per
column, and raises a `ValueError` (leaving the frame untouched) otherwise. -/
def setRow (df : DataFrame) (sid : ℤ) (a : NpArray) :
    Except (AddError × SubmissionState) DataFrame :=
  if a.ndim = 1 ∧ a.data.length = df.ncols then
    .ok ⟨df.ncols, df.rows ++ [(sid, a.data)]⟩
  else
    .error (.pandasRowError, some df)

/-- The checks of `ResultSubmission.add` that run once `self.df` exists
(source lines 140–150), ending in the pandas row assignment. -/
def addChecked (cfg : Config) (df : DataFrame) (sid : ℤ) (a : NpArray) :
    Except (AddError × SubmissionState) DataFrame :=
  if sid ∈ df.rows.map Prod.fst then
    .error (.duplicateId sid, some df)
  else if a.ndim ≠ 1 ∧ a.size ≠ df.n_categories then
    .error (.shapeMismatch, some df)
  else if (a.data.any fun x => decide (x < 0)) || (a.data.any fun x => decide (1 < x)) then
    .error (.rangeError sid, some df)
  else if cfg.errorTol < |a.data.sum - 1| then
    .error (.sumError sid, some df)
  else
    setRow df sid a

/-- Embeds `ResultSubmission.add` (source lines 127–150): the two `isinstance`
checks, then `__init_df` when the table is still empty (which itself rejects a
class count below 2 before assigning `self.df`), then the duplicate-id, shape,
range and sum checks, and finally the pandas row assignment. On failure the
error carries the post-call state of `self.df`, since `__init_df` mutates it
before the later checks run. -/
def add (cfg : Config) (s : SubmissionState) (sampleId : PyId) (v : PyVal) :
    Except (AddError × SubmissionState) DataFrame :=
  match sampleId with
  | .nonInt => .error (.typeConflictId, s)
  | .int sid =>
    match v with
    | .array a =>
      match s with
      | none =>
        if a.len < 2 then .error (.typeConflictCategories, none)
        else addChecked cfg ⟨a.len, []⟩ sid a
      | some df => addChecked cfg df sid a
    | _ => .error (.typeConflictVector, s)

/-- The exceptions `ResultSubmission.prevalence` can raise. -/
inductive LookupError where
  | keyError (sid : ℤ)
deriving DecidableEq, Repr

/-- Embeds `ResultSubmission.prevalence` (source lines 182–194): `self.df.loc[sid]`
raises a `KeyError` when the label is absent, so the `if sel.empty: return
None` branch can only return the vector of a stored row (for a repeated label,
`sel.values.flatten()` concatenates the matching rows). -/
def prevalence (df : DataFrame) (sid : ℤ) :
    Except LookupError (Option (List ℚ)) :=
  match df.rows.filter (fun r => r.1 = sid) with
  | [] => .error (.keyError sid)
  | sel => if sel = [] then .ok none else .ok (some (sel.map Prod.snd).flatten)

/-- Embeds `ResultSubmission.iterrows` (source lines 196–204): pandas yields the rows
in the dataframe's storage order. -/
def iterrows (df : DataFrame) : List (ℤ × List ℚ) := df.rows

/-- The exceptions `check_dataframe_format` can raise; constructors carry the
data interpolated into the corresponding `ValueError` message (in particular
`unexpectedIds` carries `len(missing)` as its count, exactly as source line 254
writes it). -/
inductive FormatError where
  | wrongHeader
  | emptyResults
  | wrongNumberOfSamples (found : ℕ)
  | missingIds (count : ℕ) (ids : List ℤ)
  | unexpectedIds (count : ℕ) (ids : List ℤ)
  | columnOutOfRange (col : ℕ)
  | rowSumErrors (positions : List ℕ)
deriving DecidableEq, Repr

/-- Embeds `set(df.index.values)`: the set of ids stored in the dataframe. -/
def idSet (df : DataFrame) : Finset ℤ := (df.rows.map Prod.fst).toFinset

/-- Embeds `set(range(len(df)))`: the ids a table with this row count must carry. -/
def expectedIdSet (df : DataFrame) : Finset ℤ :=
  (Finset.range df.rows.length).image Int.ofNat

/-- The id-set check of `check_dataframe_format` (source lines 246–254): when
the stored ids differ from `{0, …, n-1}`, the set of missing ids is computed
and reported if non-empty; only when it is empty is the set of unexpected ids
computed, reported (if non-empty) with `len(missing)` as the count. -/
def checkIdSet (df : DataFrame) : Except FormatError Unit :=
  if idSet df ≠ expectedIdSet df then
    let missing := expectedIdSet df \ idSet df
    if missing.Nonempty then
      .error (.missingIds missing.card (missing.sort (· ≤ ·)))
    else
      let unexpected := idSet df \ expectedIdSet df
      if unexpected.Nonempty then
        .error (.unexpectedIds missing.card (unexpected.sort (· ≤ ·)))
      else .ok ()
  else .ok ()

/-- Column `j` of the dataframe, as `df[category_id]` reads it. -/
def column (df : DataFrame) (j : ℕ) : List ℚ :=
  df.rows.map (fun r => r.2.getD j 0)

/-- The per-column range check of `check_dataframe_format` (source lines
256–258): the first column holding a value outside `[0, 1]` is reported. -/
def checkColumnRange (df : DataFrame) : Except FormatError Unit :=
  match (List.range df.ncols).find?
      (fun j => (column df j).any fun x => decide (x < 0) || decide (1 < x)) with
  | some j => .error (.columnOutOfRange j)
  | none => .ok ()

/-- The row-sum check of `check_dataframe_format` (source lines 260–265): rows
whose values do not sum to 1 within tolerance are reported by their positional
index (`np.where(round_errors)[0]`). -/
def checkRowSums (cfg : Config) (df : DataFrame) : Except FormatError Unit :=
  let bad := ((df.rows.enum).filter
    (fun p => decide (cfg.errorTol < |p.2.2.sum - 1|))).map Prod.fst
  if bad ≠ [] then .error (.rowSumErrors bad) else .ok ()

/-- Embeds `ResultSubmission.check_dataframe_format` (source lines 219–267). The two
header conditions that concern parsed CSV metadata (`df.index.name != 'id'`
and the column labels being `0, …, n-1` in order) are structural in this
embedding, because `DataFrame` keeps only the column count; the remaining
header condition `len(df.columns) < 2` is checked, then emptiness, the row
count against the two permitted sample sizes, the id set, the per-column
range, and the row sums, in the source's order. -/
def check_dataframe_format (cfg : Config) (df : DataFrame) :
    Except FormatError DataFrame := do
  if df.ncols < 2 then throw .wrongHeader
  if df.rows.isEmpty then throw .emptyResults
  if df.rows.length ≠ cfg.devSamples ∧ df.rows.length ≠ cfg.testSamples then
    throw (.wrongNumberOfSamples df.rows.length)
  checkIdSet df
  checkColumnRange df
  checkRowSums cfg df
  return df

/-- Embeds `ResultSubmission.load` (source lines 160–171): the file (modelled, as the
spec's §6 does, as already-parsed tabular data) goes through
`check_file_format`, which is `check_dataframe_format` on the parsed frame,
and the validated frame becomes the new container's dataframe. -/
def load (cfg : Config) (file : DataFrame) : Except FormatError DataFrame :=
  check_dataframe_format cfg file

/-- Embeds `ResultSubmission.dump` (source lines 173–180): `check_dataframe_format`
runs first, and only if it passes does `self.df.to_csv(path)` replace the
destination file (modelled as an optional already-parsed frame); a validation
error propagates before anything is written. -/
def dump (cfg : Config) (df : DataFrame) (fs : Option DataFrame) :
    Except FormatError Unit × Option DataFrame :=
  match check_dataframe_format cfg df with
  | .error e => (.error e, fs)
  | .ok d => (.ok (), some d)

/-- Chains `add` calls (integer ids, 1-D vectors) starting from a given state,
stopping at the first failure; this is how a caller populates a
`ResultSubmission` incrementally. -/
def addAll (cfg : Config) (s : SubmissionState) :
    List (ℤ × List ℚ) → Except (AddError × SubmissionState) SubmissionState
  | [] => .ok s
  | (i, v) :: rest =>
    match add cfg s (.int i) (.array (NpArray.vec v)) with
    | .error e => .error e
    | .ok df => addAll cfg (some df) rest

/-- Embeds `xs.mean(axis=-1)` on a 1-D array. -/
def mean (l : List ℚ) : ℚ := l.sum / l.length

/-- The exceptions `evaluate_submission` and the per-sample error functions it
calls can raise; constructors carry the counts interpolated into the
corresponding message. -/
inductive EvalError where
  | sizeMismatch (nTrue nPred : ℕ)
  | categoryMismatch (kTrue kPred : ℕ)
  | predictionKeyError (sid : ℤ)
  | shapeAssert
  | noneType
deriving DecidableEq, Repr

/-- Embeds `absolute_error` (source lines 29–40 of `evaluate.py`): asserts equal
shapes, then takes the mean over classes of `|p_hat - p|`. -/
def absolute_error (prevs prevs_hat : List ℚ) : Except EvalError ℚ :=
  if prevs.length = prevs_hat.length then
    .ok (mean (List.zipWith (fun a b => |b - a|) prevs prevs_hat))
  else .error .shapeAssert

/-- The inner `__smooth` of `relative_absolute_error`:
`(prevs + eps) / (eps * n_classes + 1)`, elementwise, with `n_classes` the
length of the vector being smoothed. -/
def smooth (prevs : List ℚ) (eps : ℚ) : List ℚ :=
  prevs.map (fun p => (p + eps) / (eps * prevs.length + 1))

/-- Embeds `relative_absolute_error` (source lines 43–64 of `evaluate.py`): smooth
both vectors, then take the mean over classes of `|p - p_hat| / p` with `p`
the smoothed true vector. -/
def relative_absolute_error (p p_hat : List ℚ) (eps : ℚ) : ℚ :=
  let ps := smooth p eps
  let phs := smooth p_hat eps
  mean (List.zipWith (fun a b => |a - b| / a) ps phs)

/-- The spec's formula for the relative absolute error, written as the spec
words it: smooth each vector with `smoothed(v) = (v + eps) / (eps * k + 1)`
(with `k` the number of classes), then average
`|smoothed(pred) - smoothed(true)| / smoothed(true)` over the `k` classes. -/
def relative_absolute_error_spec (p p_hat : List ℚ) (eps : ℚ) : ℚ :=
  let k := p.length
  let smoothed := fun (v : List ℚ) (i : ℕ) => (v.getD i 0 + eps) / (eps * k + 1)
  (∑ i ∈ Finset.range k, |smoothed p_hat i - smoothed p i| / smoothed p i) / k

/-- The per-sample body of the loop in `evaluate_submission` (source lines
76–79 of `evaluate.py`): look the sample up in the predictions (a missing id
surfaces pandas' `KeyError`; the dead `None` return would crash inside
`absolute_error`), then compute the two per-sample errors. -/
def evalSample (pred : DataFrame) (eps : ℚ) (r : ℤ × List ℚ) :
    Except EvalError (ℚ × ℚ) := do
  let sel ← match prevalence pred r.1 with
    | .error (.keyError sid) => throw (.predictionKeyError sid)
    | .ok v => pure v
  match sel with
  | none => throw .noneType
  | some pv =>
    let ae ← absolute_error r.2 pv
    return (ae, relative_absolute_error r.2 pv eps)

/-- Embeds `evaluate_submission` (source lines 67–88 of `evaluate.py`) with
`average=False`: the row-count check, then the category-count check, then the
per-sample loop over the ground truth's rows, accumulating the two parallel
per-sample error sequences. -/
def evaluate_submission (true_prevs predicted_prevs : DataFrame)
    (sample_size : ℕ) : Except EvalError (List ℚ × List ℚ) := do
  if true_prevs.rows.length ≠ predicted_prevs.rows.length then
    throw (.sizeMismatch true_prevs.rows.length predicted_prevs.rows.length)
  if true_prevs.n_categories ≠ predicted_prevs.n_categories then
    throw (.categoryMismatch true_prevs.n_categories predicted_prevs.n_categories)
  let eps : ℚ := 1 / (2 * sample_size)
  let pairs ← true_prevs.rows.mapM (evalSample predicted_prevs eps)
  return (pairs.map Prod.fst, pairs.map Prod.snd)

/-- Embeds `evaluate_submission` with `average=True` (the default): the means of the
two per-sample sequences. -/
def evaluate_submission_avg (true_prevs predicted_prevs : DataFrame)
    (sample_size : ℕ) : Except EvalError (ℚ × ℚ) :=
  (evaluate_submission true_prevs predicted_prevs sample_size).map
    (fun r => (mean r.1, mean r.2))

/-! ### Helper lemmas -/

instance instDecEqExcept {ε α : Type} [DecidableEq ε] [DecidableEq α] :
    DecidableEq (Except ε α)
  | .error e, .error f =>
    if h : e = f then .isTrue (congrArg Except.error h)
    else .isFalse (fun hh => h (Except.error.inj hh))
  | .error _, .ok _ => .isFalse (fun hh => Except.noConfusion hh)
  | .ok _, .error _ => .isFalse (fun hh => Except.noConfusion hh)
  | .ok a, .ok b =>
    if h : a = b then .isTrue (congrArg Except.ok h)
    else .isFalse (fun hh => h (Except.ok.inj hh))

lemma getD_map_of_lt (f : ℚ → ℚ) (l : List ℚ) (i : ℕ) (hi : i < l.length) :
    (l.map f).getD i 0 = f (l.getD i 0) := by
  simp [List.getD_eq_getElem?_getD, List.getElem?_map, List.getElem?_eq_getElem hi]

lemma zipWith_sum_eq (f : ℚ → ℚ → ℚ) :
    ∀ (a b : List ℚ), a.length = b.length →
      (List.zipWith f a b).sum =
        ∑ i ∈ Finset.range a.length, f (a.getD i 0) (b.getD i 0) := by
  intro a
  induction a with
  | nil =>
    intro b _
    simp
  | cons x xs ih =>
    intro b hb
    match b with
    | [] => simp at hb
    | y :: ys =>
      have hlen : xs.length = ys.length := by simpa using hb
      simp only [List.zipWith_cons_cons, List.sum_cons, List.length_cons]
      rw [Finset.sum_range_succ', ih ys hlen]
      simp [add_comm]

/-! ### C1: `relative_absolute_error` matches the spec's formula -/

/-- C1: for prevalence vectors of equal length `k` and any smoothing constant
`eps`, `relative_absolute_error p p_hat eps` is the mean over the `k` classes
of `|smoothed(p_hat) - smoothed(p)| / smoothed(p)`, with
`smoothed(v) = (v + eps) / (eps * k + 1)` applied elementwise to each vector
independently. -/
theorem relative_absolute_error_matches_spec (p p_hat : List ℚ) (eps : ℚ)
    (h : p.length = p_hat.length) :
    relative_absolute_error p p_hat eps =
      relative_absolute_error_spec p p_hat eps := by
  have hsp : (smooth p eps).length = p.length := by simp [smooth]
  have hsph : (smooth p_hat eps).length = p_hat.length := by simp [smooth]
  unfold relative_absolute_error relative_absolute_error_spec mean
  dsimp only
  rw [zipWith_sum_eq (fun a b => |a - b| / a) _ _ (by rw [hsp, hsph, h])]
  rw [List.length_zipWith, hsp, hsph, ← h, min_self]
  refine congrArg (fun s => s / (p.length : ℚ)) ?_
  refine Finset.sum_congr rfl fun i hi => ?_
  have hip : i < p.length := Finset.mem_range.mp hi
  have hiph : i < p_hat.length := h ▸ hip
  unfold smooth
  rw [getD_map_of_lt _ _ _ hip, getD_map_of_lt _ _ _ hiph, ← h, abs_sub_comm]

/-- Witness for C1 at `p = [1/2, 1/2]`, `p_hat = [3/5, 2/5]`, `eps = 1/100`. -/
theorem relative_absolute_error_matches_spec_witness :
    ([(1:ℚ)/2, 1/2].length = [(3:ℚ)/5, 2/5].length) ∧
      relative_absolute_error [(1:ℚ)/2, 1/2] [(3:ℚ)/5, 2/5] (1/100) =
        relative_absolute_error_spec [(1:ℚ)/2, 1/2] [(3:ℚ)/5, 2/5] (1/100) :=
  ⟨rfl, relative_absolute_error_matches_spec _ _ _ rfl⟩

/-! ### C2: the scorer's precondition checks -/

/-- C2: `evaluate_submission` fails with the size-mismatch error (carrying
both row counts) whenever the two tables' row counts differ, and with the
category-mismatch error (carrying both class counts) whenever the row counts
agree but the class counts differ — in both cases for arbitrary row contents,
hence before any per-sample error is computed. -/
theorem evaluate_submission_precondition_errors (t p : DataFrame) (n : ℕ) :
    (t.rows.length ≠ p.rows.length →
      evaluate_submission t p n =
        .error (.sizeMismatch t.rows.length p.rows.length)) ∧
    (t.rows.length = p.rows.length → t.n_categories ≠ p.n_categories →
      evaluate_submission t p n =
        .error (.categoryMismatch t.n_categories p.n_categories)) := by
  constructor
  · intro h
    simp only [evaluate_submission, if_pos h]
    rfl
  · intro h1 h2
    simp only [evaluate_submission, h1, if_pos h2]
    rw [if_neg (fun hh => hh rfl)]
    rfl

/-- Witness for C2: a one-row table against an empty table gives the
size-mismatch error; two one-row tables with 2 vs 3 classes give the
category-mismatch error. The prediction tables are ones on which the
per-sample loop could not even run, showing the checks come first. -/
theorem evaluate_submission_precondition_errors_witness :
    evaluate_submission ⟨2, [(0, [1/2, 1/2])]⟩ ⟨2, []⟩ 5 =
        .error (.sizeMismatch 1 0) ∧
      evaluate_submission ⟨2, [(0, [1/2, 1/2])]⟩ ⟨3, [(7, [1/3, 1/3, 1/3])]⟩ 5 =
        .error (.categoryMismatch 2 3) :=
  ⟨(evaluate_submission_precondition_errors ⟨2, [(0, [1/2, 1/2])]⟩ ⟨2, []⟩ 5).1
      (by decide),
    (evaluate_submission_precondition_errors ⟨2, [(0, [1/2, 1/2])]⟩
        ⟨3, [(7, [1/3, 1/3, 1/3])]⟩ 5).2 (by decide) (by decide)⟩

/-! ### C10: a failed `add` never changes the stored rows -/

lemma addChecked_error_state (cfg : Config) (df : DataFrame) (sid : ℤ)
    (a : NpArray) (e : AddError) (s' : SubmissionState)
    (h : addChecked cfg df sid a = .error (e, s')) : s' = some df := by
  unfold addChecked setRow at h
  repeat' split at h
  all_goals simp_all

/-- C10: whenever `add` fails, with any of its errors, the stored rows after
the call are exactly the stored rows before it (the row assignment is the
last step, after every check; the only mutation a failing call can make is
`__init_df` creating the empty dataframe, which stores no row). -/
theorem add_failure_preserves_rows (cfg : Config) (s : SubmissionState)
    (sampleId : PyId) (v : PyVal) (e : AddError) (s' : SubmissionState)
    (h : add cfg s sampleId v = .error (e, s')) :
    s'.storedRows = s.storedRows := by
  cases sampleId with
  | nonInt =>
    simp only [add] at h
    obtain ⟨-, rfl⟩ := by simpa using h
    rfl
  | int sid =>
    cases v with
    | array a =>
      cases s with
      | none =>
        simp only [add] at h
        split at h
        · obtain ⟨-, rfl⟩ := by simpa using h
          rfl
        · have := addChecked_error_state cfg _ sid a e s' h
          subst this
          rfl
      | some df =>
        simp only [add] at h
        have := addChecked_error_state cfg df sid a e s' h
        subst this
        rfl
    | str s0 =>
      simp only [add] at h
      obtain ⟨-, rfl⟩ := by simpa using h
      rfl
    | pyNone =>
      simp only [add] at h
      obtain ⟨-, rfl⟩ := by simpa using h
      rfl

/-- Witness for C10: adding a duplicate id to a one-row table fails and the
stored rows are unchanged. -/
theorem add_failure_preserves_rows_witness :
    add ⟨1/1000, 3, 5⟩ (some ⟨2, [(0, [1/2, 1/2])]⟩) (.int 0)
        (.array (NpArray.vec [1/3, 2/3])) =
      .error (.duplicateId 0, some ⟨2, [(0, [1/2, 1/2])]⟩) ∧
    SubmissionState.storedRows (some ⟨2, [(0, [1/2, 1/2])]⟩) =
      SubmissionState.storedRows (some ⟨2, [(0, [1/2, 1/2])]⟩) :=
  ⟨by rfl,
    add_failure_preserves_rows ⟨1/1000, 3, 5⟩ (some ⟨2, [(0, [1/2, 1/2])]⟩)
      (.int 0) (.array (NpArray.vec [1/3, 2/3])) (.duplicateId 0)
      (some ⟨2, [(0, [1/2, 1/2])]⟩) (by rfl)⟩

/-! ### C4: the `add` shape check never fires for a 1-D vector -/

/-- C4: on a table with `k = 2` established, adding a fresh id with the 1-D
length-3 vector `[1/3, 1/3, 1/3]` does *not* fail with the shape-mismatch
error: the check `ndim != 1 and size != n_categories` is false because the
vector is 1-D, every later check passes, and the failure only surfaces as the
pandas `ValueError` from the final row assignment. -/
theorem add_wrong_length_vector_not_shape_mismatch :
    add ⟨1/1000, 3, 5⟩ (some ⟨2, [(0, [1/2, 1/2])]⟩) (.int 1)
        (.array (NpArray.vec [1/3, 1/3, 1/3])) =
      .error (.pandasRowError, some ⟨2, [(0, [1/2, 1/2])]⟩) ∧
    AddError.isShapeMismatch .pandasRowError = false := by
  refine ⟨?_, rfl⟩
  norm_num [add, addChecked, setRow, NpArray.vec, NpArray.ndim, NpArray.size,
    NpArray.len, DataFrame.n_categories]

/-! ### C5: `prevalence` on a missing id -/

/-- C5: on a two-row table, looking up the absent id `5` raises the pandas
`KeyError` (the function's `return None` branch is unreachable), while looking
up the present id `1` returns the stored vector. -/
theorem prevalence_missing_id_raises_key_error :
    prevalence ⟨2, [(0, [1/2, 1/2]), (1, [1/4, 3/4])]⟩ 5 =
        .error (.keyError 5) ∧
      prevalence ⟨2, [(0, [1/2, 1/2]), (1, [1/4, 3/4])]⟩ 1 =
        .ok (some [1/4, 3/4]) :=
  ⟨by rfl, by rfl⟩

/-! ### C8: `add` with a duplicate id -/

/-- C8 counterexample: on a table containing id `0`, calling `add` again with
id `0` but a string instead of an `np.ndarray` fails with the vector type
error, not the duplicate-id error — the `isinstance` checks run first. -/
theorem add_duplicate_id_nonarray_counterexample :
    add ⟨1/1000, 3, 5⟩ (some ⟨2, [(0, [1/2, 1/2])]⟩) (.int 0) (.str "oops") =
        .error (.typeConflictVector, some ⟨2, [(0, [1/2, 1/2])]⟩) ∧
      AddError.isDuplicateId .typeConflictVector = false :=
  ⟨by rfl, rfl⟩

/-- C8 (amended): once the second argument is an `np.ndarray`, `add` with a
duplicate id always fails with the duplicate-id error, whatever the array's
shape or values — the duplicate check precedes the shape, range and sum
checks. -/
theorem add_duplicate_id_array_always_duplicate_error (cfg : Config)
    (df : DataFrame) (sid : ℤ) (a : NpArray)
    (h : sid ∈ df.rows.map Prod.fst) :
    add cfg (some df) (.int sid) (.array a) =
      .error (.duplicateId sid, some df) := by
  simp only [add, addChecked, if_pos h]

/-- Witness for the amended C8: a duplicate id with a 2×2 array of values far
outside `[0, 1]` still gives the duplicate-id error. -/
theorem add_duplicate_id_array_always_duplicate_error_witness :
    add ⟨1/1000, 3, 5⟩ (some ⟨2, [(0, [1/2, 1/2])]⟩) (.int 0)
        (.array ⟨[2, 2], [5, 5, 5, 5]⟩) =
      .error (.duplicateId 0, some ⟨2, [(0, [1/2, 1/2])]⟩) :=
  add_duplicate_id_array_always_duplicate_error ⟨1/1000, 3, 5⟩
    ⟨2, [(0, [1/2, 1/2])]⟩ 0 ⟨[2, 2], [5, 5, 5, 5]⟩ (by decide)

/-! ### C9: iteration order -/

lemma addChecked_ok_spec (cfg : Config) (df df' : DataFrame) (sid : ℤ)
    (a : NpArray) (h : addChecked cfg df sid a = .ok df') :
    df'.rows = df.rows ++ [(sid, a.data)] ∧ sid ∉ df.rows.map Prod.fst := by
  unfold addChecked setRow at h
  repeat' split at h
  all_goals simp_all
  subst h
  rfl

lemma add_vec_ok_spec (cfg : Config) (s : SubmissionState) (i : ℤ) (v : List ℚ)
    (df : DataFrame) (h : add cfg s (.int i) (.array (NpArray.vec v)) = .ok df) :
    df.rows = s.storedRows ++ [(i, v)] ∧ i ∉ s.storedRows.map Prod.fst := by
  cases s with
  | none =>
    simp only [add] at h
    split at h
    · simp at h
    · have := addChecked_ok_spec cfg _ df i (NpArray.vec v) h
      simpa [SubmissionState.storedRows, NpArray.vec] using this
  | some d =>
    simp only [add] at h
    have := addChecked_ok_spec cfg d df i (NpArray.vec v) h
    simpa [SubmissionState.storedRows, NpArray.vec] using this

lemma addAll_ok_spec (cfg : Config) :
    ∀ (ps : List (ℤ × List ℚ)) (s s' : SubmissionState),
      addAll cfg s ps = .ok s' →
      s'.storedRows = s.storedRows ++ ps ∧
        ((s.storedRows.map Prod.fst).Nodup →
          (s'.storedRows.map Prod.fst).Nodup) := by
  intro ps
  induction ps with
  | nil =>
    intro s s' h
    simp only [addAll] at h
    obtain rfl : s = s' := by simpa using h
    simp
  | cons p rest ih =>
    intro s s' h
    obtain ⟨i, v⟩ := p
    simp only [addAll] at h
    cases hadd : add cfg s (.int i) (.array (NpArray.vec v)) with
    | error e =>
      rw [hadd] at h
      simp at h
    | ok df =>
      rw [hadd] at h
      obtain ⟨hrows, hfresh⟩ := add_vec_ok_spec cfg s i v df hadd
      obtain ⟨h1, h2⟩ := ih (some df) s' h
      refine ⟨?_, ?_⟩
      · rw [h1]
        show df.rows ++ rest = SubmissionState.storedRows s ++ ((i, v) :: rest)
        rw [hrows]
        simp
      · intro hnd
        apply h2
        show (List.map Prod.fst df.rows).Nodup
        rw [hrows, List.map_append, List.map_cons, List.map_nil,
          List.nodup_append]
        refine ⟨hnd, List.nodup_singleton _, fun x hx hxx => ?_⟩
        rw [List.mem_singleton] at hxx
        subst hxx
        exact hfresh hx

/-- C9 (amended): a table populated by any sequence of successful `add` calls
iterates over exactly the pairs that were added, each exactly once (the ids
are pairwise distinct), in insertion order — which is ascending id order only
if the caller happened to add in that order. -/
theorem iterrows_yields_insertion_order (cfg : Config)
    (ps : List (ℤ × List ℚ)) (df : DataFrame)
    (h : addAll cfg none ps = .ok (some df)) :
    iterrows df = ps ∧ (ps.map Prod.fst).Nodup := by
  obtain ⟨h1, h2⟩ := addAll_ok_spec cfg ps none (some df) h
  have hr : df.rows = ps := by
    simpa [SubmissionState.storedRows] using h1
  refine ⟨by simpa [iterrows] using hr, ?_⟩
  have := h2 (by simp [SubmissionState.storedRows])
  simpa [SubmissionState.storedRows, hr] using this

/-- C9 counterexample: adding id `1` and then id `0` (both rows valid)
succeeds, and iterating then yields `[(1, …), (0, …)]` — not ascending id
order, refuting "ascending order of id however the table was populated". -/
theorem iterrows_not_ascending_counterexample :
    addAll ⟨1/1000, 3, 5⟩ none [(1, [1, 0]), (0, [1, 0])] =
        .ok (some ⟨2, [(1, [1, 0]), (0, [1, 0])]⟩) ∧
      ¬ List.Sorted (· ≤ ·)
          ((iterrows ⟨2, [(1, [1, 0]), (0, [1, 0])]⟩).map Prod.fst) := by
  refine ⟨?_, by decide⟩
  norm_num [addAll, add, addChecked, setRow, NpArray.vec, NpArray.ndim,
    NpArray.size, NpArray.len, DataFrame.n_categories]

/-- Witness for the amended C9: the two-step population `1` then `0`
succeeds, and iteration yields the pairs in insertion order with distinct
ids. -/
theorem iterrows_yields_insertion_order_witness :
    iterrows ⟨2, [(1, [1/2, 1/2]), (0, [1/2, 1/2])]⟩ =
        [(1, [1/2, 1/2]), (0, [1/2, 1/2])] ∧
      (([(1, [1/2, 1/2]), (0, [1/2, 1/2])] :
          List (ℤ × List ℚ)).map Prod.fst).Nodup :=
  iterrows_yields_insertion_order ⟨1/1000, 3, 5⟩ _ _
    (by norm_num [addAll, add, addChecked, setRow, NpArray.vec, NpArray.ndim,
      NpArray.size, NpArray.len, DataFrame.n_categories])

/-! ### C3: the validator's id-set reporting -/

lemma expectedIdSet_card (df : DataFrame) :
    (expectedIdSet df).card = df.rows.length := by
  unfold expectedIdSet
  rw [Finset.card_image_of_injective _ fun a b hab => Int.ofNat.inj hab,
    Finset.card_range]

lemma idSet_card_le (df : DataFrame) : (idSet df).card ≤ df.rows.length := by
  unfold idSet
  calc (df.rows.map Prod.fst).toFinset.card
      ≤ (df.rows.map Prod.fst).length := List.toFinset_card_le _
    _ = df.rows.length := by simp

/-- When the stored id set differs from `{0, …, n-1}`, the missing set is
necessarily non-empty: the table holds `n` rows, so it can store at most `n`
distinct ids, and a set of at most `n` ids covering all of `{0, …, n-1}`
would be equal to it. -/
lemma missing_nonempty_of_ids_ne (df : DataFrame)
    (hids : idSet df ≠ expectedIdSet df) :
    (expectedIdSet df \ idSet df).Nonempty := by
  rw [Finset.sdiff_nonempty]
  intro hsub
  refine hids (Finset.eq_of_subset_of_card_le hsub ?_).symm
  rw [expectedIdSet_card]
  exact idSet_card_le df

/-- C3 (amended): for every table passing the header, non-emptiness and
row-count checks whose id set differs from `{0, …, n-1}`, the set of missing
ids is necessarily non-empty and `check_dataframe_format` raises the
missing-ids error alone, carrying that set's size and sorted elements; the
unexpected-ids branch (which would report `len(missing)` as its count) is
unreachable, so a non-empty unexpected set is never reported. -/
theorem check_reports_missing_ids (cfg : Config) (df : DataFrame)
    (h2 : 2 ≤ df.ncols) (hne : df.rows ≠ [])
    (hsize : df.rows.length = cfg.devSamples ∨
      df.rows.length = cfg.testSamples)
    (hids : idSet df ≠ expectedIdSet df) :
    (expectedIdSet df \ idSet df).Nonempty ∧
      check_dataframe_format cfg df =
        .error (.missingIds (expectedIdSet df \ idSet df).card
          ((expectedIdSet df \ idSet df).sort (· ≤ ·))) := by
  have hmiss := missing_nonempty_of_ids_ne df hids
  refine ⟨hmiss, ?_⟩
  have hcheck : checkIdSet df =
      .error (.missingIds (expectedIdSet df \ idSet df).card
        ((expectedIdSet df \ idSet df).sort (· ≤ ·))) := by
    unfold checkIdSet
    dsimp only
    rw [if_pos hids, if_pos hmiss]
  have hempty : ¬ (df.rows.isEmpty = true) := by
    simpa [List.isEmpty_iff] using hne
  have hlen : ¬ (df.rows.length ≠ cfg.devSamples ∧
      df.rows.length ≠ cfg.testSamples) :=
    fun hc => hsize.elim hc.1 hc.2
  unfold check_dataframe_format
  simp only [if_neg (not_lt.mpr h2), if_neg hempty, if_neg hlen, hcheck]
  rfl

/-- C3 counterexample: the table with ids `{0, 1, 3}` (row count 3, a
permitted sample size here) has missing set `{2}` and unexpected set `{3}`,
both non-empty, yet the raised error reports only the missing ids — the
non-empty unexpected set appears nowhere in it. -/
theorem check_ids_unexpected_not_reported :
    check_dataframe_format ⟨1/1000, 3, 5⟩
        ⟨2, [(0, [1, 0]), (1, [1, 0]), (3, [1, 0])]⟩ =
      .error (.missingIds 1 [2]) ∧
    idSet ⟨2, [(0, [1, 0]), (1, [1, 0]), (3, [1, 0])]⟩ \
        expectedIdSet ⟨2, [(0, [1, 0]), (1, [1, 0]), (3, [1, 0])]⟩ = {3} := by
  refine ⟨?_, by decide⟩
  have hm : expectedIdSet ⟨2, [(0, [1, 0]), (1, [1, 0]), (3, [1, 0])]⟩ \
      idSet ⟨2, [(0, [1, 0]), (1, [1, 0]), (3, [1, 0])]⟩ = {2} := by decide
  have hcheck : checkIdSet ⟨2, [(0, [1, 0]), (1, [1, 0]), (3, [1, 0])]⟩ =
      .error (.missingIds 1 [2]) := by
    unfold checkIdSet
    dsimp only
    rw [if_pos (by decide), if_pos (hm ▸ Finset.singleton_nonempty 2), hm,
      Finset.sort_singleton, Finset.card_singleton]
  unfold check_dataframe_format
  simp only [if_neg (by decide : ¬ (2 : ℕ) < 2),
    if_neg (by decide :
      ¬ ([((0 : ℤ), [(1 : ℚ), 0]), (1, [1, 0]), (3, [1, 0])].isEmpty = true)),
    if_neg (by decide : ¬ ((3 : ℕ) ≠ 3 ∧ (3 : ℕ) ≠ 5)), hcheck]
  rfl

/-- Witness for the amended C3, at the table with ids `{0, 1, 3}`. -/
theorem check_reports_missing_ids_witness :
    (expectedIdSet ⟨2, [(0, [1, 0]), (1, [1, 0]), (3, [1, 0])]⟩ \
        idSet ⟨2, [(0, [1, 0]), (1, [1, 0]), (3, [1, 0])]⟩).Nonempty ∧
      check_dataframe_format ⟨1/1000, 3, 5⟩
          ⟨2, [(0, [1, 0]), (1, [1, 0]), (3, [1, 0])]⟩ =
        .error (.missingIds
          (expectedIdSet ⟨2, [(0, [1, 0]), (1, [1, 0]), (3, [1, 0])]⟩ \
            idSet ⟨2, [(0, [1, 0]), (1, [1, 0]), (3, [1, 0])]⟩).card
          ((expectedIdSet ⟨2, [(0, [1, 0]), (1, [1, 0]), (3, [1, 0])]⟩ \
            idSet ⟨2, [(0, [1, 0]), (1, [1, 0]), (3, [1, 0])]⟩).sort (· ≤ ·))) :=
  check_reports_missing_ids ⟨1/1000, 3, 5⟩
    ⟨2, [(0, [1, 0]), (1, [1, 0]), (3, [1, 0])]⟩ (by decide) (by decide)
    (Or.inl rfl) (by decide)

/-! ### C6: `dump` validates before writing -/

/-- C6: `dump` runs the full `check_dataframe_format` routine before writing;
when any invariant is violated it fails with exactly the error the validator
raises, and the destination file is left exactly as it was — nothing is
written on failure. -/
theorem dump_validates_before_writing (cfg : Config) (df : DataFrame)
    (fs : Option DataFrame) (e : FormatError)
    (h : check_dataframe_format cfg df = .error e) :
    dump cfg df fs = (.error e, fs) := by
  simp [dump, h]

/-- Witness for C6: dumping an empty table fails with the validator's
empty-results error and leaves the pre-existing destination file intact. -/
theorem dump_validates_before_writing_witness :
    dump ⟨1/1000, 3, 5⟩ ⟨2, []⟩ (some ⟨2, [(0, [1, 0])]⟩) =
      (.error .emptyResults, some ⟨2, [(0, [1, 0])]⟩) :=
  dump_validates_before_writing ⟨1/1000, 3, 5⟩ ⟨2, []⟩
    (some ⟨2, [(0, [1, 0])]⟩) .emptyResults (by decide)

/-! ### C7: the dump/load round trip -/

/-- C7: for a table whose row count is one of the two permitted sample sizes
and which passes the full validation, `dump` writes the table and `load` on
the written file succeeds, yielding a table with exactly the same ids and,
for every id, the same prevalence vector (equality, hence equality within any
tolerance). The file collaborator is modelled, as the spec's §6 does, as
already-parsed tabular data. -/
theorem dump_load_round_trip (cfg : Config) (df : DataFrame)
    (fs : Option DataFrame)
    (_hsize : df.rows.length = cfg.devSamples ∨
      df.rows.length = cfg.testSamples)
    (hok : check_dataframe_format cfg df = .ok df) :
    ∃ written : DataFrame,
      dump cfg df fs = (.ok (), some written) ∧
        load cfg written = .ok written ∧
        written.rows.map Prod.fst = df.rows.map Prod.fst ∧
        ∀ sid : ℤ, prevalence written sid = prevalence df sid := by
  refine ⟨df, ?_, ?_, rfl, fun _ => rfl⟩
  · simp [dump, hok]
  · simpa [load] using hok

unseal Rat.add Rat.sub Rat.mul Rat.inv in
/-- Witness for C7: the three-row table with ids `0, 1, 2` and rows `[1, 0]`
(row count equal to the development sample size) round-trips. -/
theorem dump_load_round_trip_witness :
    ((3 : ℕ) = 3 ∨ (3 : ℕ) = 5) ∧
      ∃ written : DataFrame,
        dump ⟨1/1000, 3, 5⟩ ⟨2, [(0, [1, 0]), (1, [1, 0]), (2, [1, 0])]⟩
            none = (.ok (), some written) ∧
          load ⟨1/1000, 3, 5⟩ written = .ok written ∧
          written.rows.map Prod.fst =
            ([(0, [1, 0]), (1, [1, 0]), (2, [1, 0])] :
              List (ℤ × List ℚ)).map Prod.fst ∧
          ∀ sid : ℤ, prevalence written sid =
            prevalence ⟨2, [(0, [1, 0]), (1, [1, 0]), (2, [1, 0])]⟩ sid :=
  ⟨Or.inl rfl,
    dump_load_round_trip ⟨1/1000, 3, 5⟩
      ⟨2, [(0, [1, 0]), (1, [1, 0]), (2, [1, 0])]⟩ none (Or.inl rfl)
      (by decide)⟩

end LeQua
